import Mathlib

/-!
Shallow embedding of the patreon-go client's response-denormalization logic
(`client.go`): the included-resource index, relationship resolution, the
entity assemblers behind GetIdentity / GetCampaigns / GetCampaignByID /
GetMemberByID / GetMembersByCampaignID, and the error path of `get`.

Go conventions are rendered as follows: a nil-able pointer becomes `Option`,
a slice becomes `List` (a nil slice and an empty slice both range to
nothing, so both become `[]`; where the wire-level null-vs-empty distinction
matters, the raw relationship data is `Option (List _)`), a
`map[string]*T` becomes an association list with last-insert-wins lookup,
and a Go map lookup `m[k]` — which yields the zero value nil when the key
is absent — becomes an `Option`-returning lookup.
-/

namespace Patreon

/-- A JSON:API resource identifier: a pair of type tag and id. -/
structure ResourceIdent where
  ty : String
  id : String
deriving DecidableEq

/-- A to-one relationship block. `data := none` is JSON null. -/
structure ToOneRel where
  data : Option ResourceIdent := none
deriving DecidableEq

/-- A to-many relationship block. `data := none` is JSON null (or an absent
block, which decodes the same way in Go); `data := some []` is an empty
identifier array. -/
structure ToManyRel where
  data : Option (List ResourceIdent) := none
deriving DecidableEq

/-- Modelled from the spec: user attribute payload. The scenario in the spec
exercises the full_name attribute; the rest of the payload is opaque. -/
structure UserAttributes where
  FullName : String := ""
deriving DecidableEq

/-- Modelled from the spec: opaque campaign attribute payload. -/
structure CampaignAttributes where
  raw : String := ""
deriving DecidableEq

/-- Modelled from the spec: opaque tier attribute payload. -/
structure TierAttributes where
  raw : String := ""
deriving DecidableEq

/-- Modelled from the spec: opaque benefit attribute payload. -/
structure BenefitAttributes where
  raw : String := ""
deriving DecidableEq

/-- Modelled from the spec: opaque goal attribute payload. -/
structure GoalAttributes where
  raw : String := ""
deriving DecidableEq

/-- Modelled from the spec: opaque address attribute payload. -/
structure AddressAttributes where
  raw : String := ""
deriving DecidableEq

/-- Modelled from the spec: opaque member attribute payload. -/
structure MemberAttributes where
  raw : String := ""
deriving DecidableEq

/-- An included user as stored in the index: decoded attributes, no resolved
relationships (phase 1 only type-decodes; resolution happens at assembly). -/
structure UserRes where
  id : String := ""
  attributes : UserAttributes := {}
deriving DecidableEq

/-- An included campaign as stored in the index. -/
structure CampaignRes where
  id : String := ""
  attributes : CampaignAttributes := {}
deriving DecidableEq

/-- An included tier as stored in the index. Its own campaign reference is
kept as a raw identifier and never resolved by the assemblers, which lets a
document express the Campaign→Tier→Campaign cycle of the spec. -/
structure TierRes where
  id : String := ""
  attributes : TierAttributes := {}
  campaignRef : Option ResourceIdent := none
deriving DecidableEq

/-- An included benefit as stored in the index. -/
structure BenefitRes where
  id : String := ""
  attributes : BenefitAttributes := {}
deriving DecidableEq

/-- An included goal as stored in the index. -/
structure GoalRes where
  id : String := ""
  attributes : GoalAttributes := {}
deriving DecidableEq

/-- An included address as stored in the index. -/
structure AddressRes where
  id : String := ""
  attributes : AddressAttributes := {}
deriving DecidableEq

/-- An included membership (member resource) as stored in the index. -/
structure MemberRes where
  id : String := ""
  attributes : MemberAttributes := {}
deriving DecidableEq

/-- Go map insertion: a later insert for the same key overwrites the earlier
entry (last-seen wins, as the spec's duplicate-id quirk documents). -/
def mapInsert {β : Type} (m : List (String × β)) (k : String) (v : β) :
    List (String × β) :=
  m.filter (fun p => p.1 != k) ++ [(k, v)]

/-- Go map lookup `m[k]` on a map of pointers: the stored entry when the key
is present, and nil (`none`) — the zero value — when it is absent. -/
def mapGet {β : Type} (m : List (String × β)) (k : String) : Option β :=
  (m.find? (fun p => p.1 == k)).map (fun p => p.2)

/-- Ranging over a Go map yields its stored values (order here: insertion
order; Go's iteration order is unspecified, so theorems below only use this
up to membership and emptiness). -/
def mapValues {β : Type} (m : List (String × β)) : List β :=
  m.map (fun p => p.2)

/-- One element of the wire-level `included` array, already dispatched on its
type tag. Modelled from the spec: the UnmarshalJSON that classifies included
resources by type is not part of the excerpted source; the spec specifies
dispatch on the type field with unrecognized tags skipped. -/
inductive RawIncluded where
  | user (id : String) (attributes : UserAttributes)
  | campaign (id : String) (attributes : CampaignAttributes)
  | tier (id : String) (attributes : TierAttributes)
      (campaignRef : Option ResourceIdent)
  | benefit (id : String) (attributes : BenefitAttributes)
  | goal (id : String) (attributes : GoalAttributes)
  | address (id : String) (attributes : AddressAttributes)
  | membership (id : String) (attributes : MemberAttributes)
  | unknown (ty : String) (id : String)
deriving DecidableEq

/-- The per-response included-resource index: one Go map per resource type,
as the fields `resp.Included.users`, `.campaigns`, `.tiers`, `.benefits`,
`.goals`, `.addresses`, `.memberships` of client.go. -/
structure Included where
  users : List (String × UserRes) := []
  campaigns : List (String × CampaignRes) := []
  tiers : List (String × TierRes) := []
  benefits : List (String × BenefitRes) := []
  goals : List (String × GoalRes) := []
  addresses : List (String × AddressRes) := []
  memberships : List (String × MemberRes) := []
deriving DecidableEq

/-- Insert one classified included resource into the index. -/
def insertIncluded (acc : Included) : RawIncluded → Included
  | .user id a => { acc with users := mapInsert acc.users id { id := id, attributes := a } }
  | .campaign id a => { acc with campaigns := mapInsert acc.campaigns id { id := id, attributes := a } }
  | .tier id a r => { acc with tiers := mapInsert acc.tiers id { id := id, attributes := a, campaignRef := r } }
  | .benefit id a => { acc with benefits := mapInsert acc.benefits id { id := id, attributes := a } }
  | .goal id a => { acc with goals := mapInsert acc.goals id { id := id, attributes := a } }
  | .address id a => { acc with addresses := mapInsert acc.addresses id { id := id, attributes := a } }
  | .membership id a => { acc with memberships := mapInsert acc.memberships id { id := id, attributes := a } }
  | .unknown _ _ => acc

/-- Modelled from the spec: phase-1 index construction — classify every
element of the `included` array by its type tag, decode it, insert it into
the per-type map; no relationship is resolved at this stage. -/
def buildIncluded (items : List RawIncluded) : Included :=
  items.foldl insertIncluded {}

/-- The relationships block of the primary user resource of an identity
response. GetIdentity reads only the campaign field; the memberships field is
modelled from the spec (it may arrive on the wire but is never consulted). -/
structure UserRelationships where
  campaign : ToOneRel := {}
  memberships : ToManyRel := {}
deriving DecidableEq

/-- The relationships block of a campaign resource, as read by
GetCampaigns and GetCampaignByID. -/
structure CampaignRelationships where
  creator : ToOneRel := {}
  benefits : ToManyRel := {}
  goals : ToManyRel := {}
  tiers : ToManyRel := {}
deriving DecidableEq

/-- The relationships block of a member resource. GetMemberByID reads
address, campaign and user; the currently_entitled_tiers field is modelled
from the spec (present on the wire, never consulted by the assembler). -/
structure MemberRelationships where
  address : ToOneRel := {}
  campaign : ToOneRel := {}
  user : ToOneRel := {}
  currently_entitled_tiers : ToManyRel := {}
deriving DecidableEq

/-- The primary data of an identity response. -/
structure UserData where
  id : String := ""
  attributes : Option UserAttributes := none
  relationships : UserRelationships := {}
deriving DecidableEq

/-- The primary data of a campaign response. -/
structure CampaignData where
  id : String := ""
  attributes : Option CampaignAttributes := none
  relationships : CampaignRelationships := {}
deriving DecidableEq

/-- The primary data of a member response. -/
structure MemberData where
  id : String := ""
  attributes : Option MemberAttributes := none
  relationships : MemberRelationships := {}
deriving DecidableEq

/-- identityResponse: primary user data plus the raw included array (the Go
type decodes `included` into the index during unmarshalling; here the index
is built by `buildIncluded` at assembly time, which is equivalent). -/
structure IdentityResponse where
  data : UserData := {}
  included : List RawIncluded := []
deriving DecidableEq

/-- campaignResponse: primary campaign data plus the raw included array. -/
structure CampaignResponse where
  data : CampaignData := {}
  included : List RawIncluded := []
deriving DecidableEq

/-- campaignListResponse: a list of primary campaign data plus one shared
raw included array. -/
structure CampaignListResponse where
  data : List CampaignData := []
  included : List RawIncluded := []
deriving DecidableEq

/-- memberResponse: primary member data plus the raw included array. -/
structure MemberResponse where
  data : MemberData := {}
  included : List RawIncluded := []
deriving DecidableEq

/-- The assembled User returned by GetIdentity. -/
structure User where
  ID : String := ""
  UserAttributes : Option UserAttributes := none
  Campaign : Option CampaignRes := none
  Memberships : List MemberRes := []
deriving DecidableEq

/-- The assembled Campaign returned by GetCampaigns / GetCampaignByID. The
to-many fields hold `Option` elements because the Go code appends the map
lookup `resp.Included.xs[relation.ID]` unconditionally, and that lookup is
nil when the identifier is dangling. -/
structure Campaign where
  ID : String := ""
  CampaignAttributes : Option CampaignAttributes := none
  Creator : Option UserRes := none
  Benefits : List (Option BenefitRes) := []
  Goals : List (Option GoalRes) := []
  Tiers : List (Option TierRes) := []
deriving DecidableEq

/-- The assembled Member returned by GetMemberByID. CurrentlyEntitledTiers
holds plain values: it is filled by ranging over the tiers map, whose stored
values are the (non-nil) decoded tiers. -/
structure Member where
  ID : String := ""
  MemberAttributes : Option MemberAttributes := none
  Address : Option AddressRes := none
  Campaign : Option CampaignRes := none
  User : Option UserRes := none
  CurrentlyEntitledTiers : List TierRes := []
deriving DecidableEq

/-- The campaign-assembly body shared verbatim by GetCampaigns (loop body,
client.go lines 88–115) and GetCampaignByID (lines 131–157):
  - Creator: assigned `resp.Included.users[Data.ID]` only when the creator
    relationship data is non-nil — `Option.bind` renders the nil-guarded
    assignment of a lookup that may itself be nil;
  - Benefits/Goals/Tiers: for each identifier in document order, append the
    map lookup (nil when dangling); ranging over nil data appends nothing. -/
def assembleCampaign (d : CampaignData) (inc : Included) : Campaign :=
  { ID := d.id
    CampaignAttributes := d.attributes
    Creator := d.relationships.creator.data.bind (fun r => mapGet inc.users r.id)
    Benefits := (d.relationships.benefits.data.getD []).map
      (fun r => mapGet inc.benefits r.id)
    Goals := (d.relationships.goals.data.getD []).map
      (fun r => mapGet inc.goals r.id)
    Tiers := (d.relationships.tiers.data.getD []).map
      (fun r => mapGet inc.tiers r.id) }

/-- The member-assembly body of GetMemberByID (client.go lines 182–208):
to-one relationships are resolved by nil-guarded lookup; the
CurrentlyEntitledTiers collection is filled by ranging over the whole tiers
map of the index, without consulting any relationship block. -/
def assembleMember (d : MemberData) (inc : Included) : Member :=
  { ID := d.id
    MemberAttributes := d.attributes
    Address := d.relationships.address.data.bind (fun r => mapGet inc.addresses r.id)
    Campaign := d.relationships.campaign.data.bind (fun r => mapGet inc.campaigns r.id)
    User := d.relationships.user.data.bind (fun r => mapGet inc.users r.id)
    CurrentlyEntitledTiers := mapValues inc.tiers }

/-- The user-assembly body of GetIdentity (client.go lines 59–72): the
campaign relationship is resolved by nil-guarded lookup; Memberships is
filled by ranging over the whole memberships map of the index. -/
def assembleIdentity (d : UserData) (inc : Included) : User :=
  { ID := d.id
    UserAttributes := d.attributes
    Campaign := d.relationships.campaign.data.bind (fun r => mapGet inc.campaigns r.id)
    Memberships := mapValues inc.memberships }

/-- One item of the structured error body. Modelled from the spec: the
ErrorResponse type is not part of the excerpted source; the spec specifies a
list of code/title/detail-shaped items. -/
structure ErrorDetail where
  code : Int := 0
  title : String := ""
  detail : String := ""
deriving DecidableEq

/-- The aggregate error body returned on a non-success status. -/
structure ErrorResponse where
  errors : List ErrorDetail := []
deriving DecidableEq

/-- The faults a fetch can return: a bad request URL (buildURL failure), a
transport failure from httpClient.Get, the decoded API error body on a
non-200 status, or a body that does not decode. -/
inductive ClientError where
  | url (msg : String)
  | transport (msg : String)
  | api (errs : ErrorResponse)
  | decode (msg : String)
deriving DecidableEq

/-- What the boundary hands the `get` helper on one call: a URL-construction
failure, a transport failure, or a status code with a body. The body is
carried as its two decode attempts — as an error document and as the typed
response — since the Go code decodes the single byte stream one way or the
other depending on the status. -/
inductive HttpOutcome (α : Type) where
  | badURL (msg : String)
  | transportFailure (msg : String)
  | response (status : Nat) (errorBody : Except String ErrorResponse)
      (okBody : Except String α)

/-- The `get` helper (client.go lines 241–262): propagate URL and transport
failures; on a non-200 status decode the body as an ErrorResponse and return
it as the error (or the decode failure); on 200 decode the typed response. -/
def get {α : Type} (outcome : HttpOutcome α) : Except ClientError α :=
  match outcome with
  | .badURL m => Except.error (ClientError.url m)
  | .transportFailure m => Except.error (ClientError.transport m)
  | .response status errorBody okBody =>
      if status == 200 then
        match okBody with
        | .ok v => Except.ok v
        | .error m => Except.error (ClientError.decode m)
      else
        match errorBody with
        | .ok errs => Except.error (ClientError.api errs)
        | .error m => Except.error (ClientError.decode m)

/-- GetIdentity (client.go lines 53–73), as Go's two return values: on any
error from `get`, return nil and the error; otherwise assemble and return
the User and a nil error. -/
def GetIdentity (outcome : HttpOutcome IdentityResponse) :
    Option User × Option ClientError :=
  match get outcome with
  | .error e => (none, some e)
  | .ok resp => (some (assembleIdentity resp.data (buildIncluded resp.included)), none)

/-- GetCampaigns (client.go lines 79–119): each element of the data array is
assembled independently against the one index built for the response. -/
def GetCampaigns (outcome : HttpOutcome CampaignListResponse) :
    Option (List Campaign) × Option ClientError :=
  match get outcome with
  | .error e => (none, some e)
  | .ok resp =>
      (some (resp.data.map (fun d => assembleCampaign d (buildIncluded resp.included))),
        none)

/-- GetCampaignByID (client.go lines 125–158). The id argument only selects
the request URL. -/
def GetCampaignByID (_ : String) (outcome : HttpOutcome CampaignResponse) :
    Option Campaign × Option ClientError :=
  match get outcome with
  | .error e => (none, some e)
  | .ok resp => (some (assembleCampaign resp.data (buildIncluded resp.included)), none)

/-- Modelled from the spec: the caller-facing request options (include list,
sparse fieldsets, page size, page cursor); they only shape the request URL
and never reach the decoding path. -/
inductive RequestOpt where
  | withIncludes (relationships : String)
  | withFields (resource : String) (fields : String)
  | withPageSize (size : Nat)
  | withCursor (cursor : String)
deriving DecidableEq

/-- GetMembersByCampaignID (client.go lines 166–168): the body is
`return nil, nil` — no request is performed and both results are nil. -/
def GetMembersByCampaignID (_ : String) (_ : List RequestOpt) :
    Option (List Member) × Option ClientError :=
  (none, none)

/-- GetMemberByID (client.go lines 176–209). -/
def GetMemberByID (_ : String) (outcome : HttpOutcome MemberResponse) :
    Option Member × Option ClientError :=
  match get outcome with
  | .error e => (none, some e)
  | .ok resp => (some (assembleMember resp.data (buildIncluded resp.included)), none)

/-- A campaign whose benefits relationship lists identifiers 1, 2, 3. -/
def benefitsAbcData : CampaignData :=
  { id := "c"
    relationships :=
      { benefits :=
          { data := some [⟨"benefit", "1"⟩, ⟨"benefit", "2"⟩, ⟨"benefit", "3"⟩] } } }

/-- An included array holding benefits 1 and 3 but not 2. -/
def benefitsAcIncluded : List RawIncluded :=
  [RawIncluded.benefit "1" { raw := "A" }, RawIncluded.benefit "3" { raw := "C" }]

/-- A member whose currently_entitled_tiers relationship block is present
with an empty identifier array. -/
def emptyCetMemberData : MemberData :=
  { id := "m"
    relationships := { currently_entitled_tiers := { data := some [] } } }

/-- An included array holding one tier. -/
def oneTierIncluded : List RawIncluded :=
  [RawIncluded.tier "t" { raw := "T" } none]

/-- A campaign whose tiers relationship data is null. -/
def nullTiersData : CampaignData :=
  { id := "c" }

/-- A campaign whose tiers relationship data is an empty identifier array. -/
def emptyTiersData : CampaignData :=
  { id := "c", relationships := { tiers := { data := some [] } } }

/-- The spec scenario document: campaign 1 with creator reference user 9,
and user 9 with full name Alice included. -/
def aliceCampaignResponse : CampaignResponse :=
  { data := { id := "1", relationships := { creator := { data := some ⟨"user", "9"⟩ } } }
    included := [RawIncluded.user "9" { FullName := "Alice" }] }

/-- The scenario document with a creator reference but an empty included
array, so the reference dangles. -/
def danglingCreatorResponse : CampaignResponse :=
  { data := { id := "1", relationships := { creator := { data := some ⟨"user", "9"⟩ } } }
    included := [] }

/-- The spec scenario error body: one item with code 1, title invalid_token. -/
def invalidTokenErrors : ErrorResponse :=
  { errors := [{ code := 1, title := "invalid_token", detail := "" }] }

/-- Campaign 1 referencing tier t, which references campaign 1 back: a
reference cycle at the document level. -/
def cyclicCampaignData : CampaignData :=
  { id := "1"
    relationships := { tiers := { data := some [⟨"tier", "t"⟩] } } }

/-- The included array backing the cycle: tier t carries a raw reference
back to campaign 1. -/
def cyclicIncluded : List RawIncluded :=
  [RawIncluded.tier "t" { raw := "T" } (some ⟨"campaign", "1"⟩)]

/-- C1 counterexample: with benefits identifiers 1, 2, 3, where 2 is
dangling and 1, 3 resolve to A and C, the assembled collection is not the
two-element list A, C — it is the three-element list A, nil, C: the Go map
lookup is appended unconditionally, so a dangling identifier contributes a
nil entry instead of being skipped. -/
theorem toMany_dangling_not_skipped_cex :
    (assembleCampaign benefitsAbcData (buildIncluded benefitsAcIncluded)).Benefits ≠
      [some { id := "1", attributes := { raw := "A" } },
       some { id := "3", attributes := { raw := "C" } }] ∧
    (assembleCampaign benefitsAbcData (buildIncluded benefitsAcIncluded)).Benefits =
      [some { id := "1", attributes := { raw := "A" } }, none,
       some { id := "3", attributes := { raw := "C" } }] := by
  decide

/-- C1 amended: for a to-many relationship with identifier list a, b, c
where b is dangling and a, c resolve to A and C, the assembled collection is
A, nil, C — survivors keep the identifier order, and every dangling
identifier occupies its position as a nil placeholder, so the collection
length equals the identifier-list length. -/
theorem toMany_dangling_null_padded (a b c : ResourceIdent) (A C : BenefitRes)
    (d : CampaignData) (inc : Included)
    (hdata : d.relationships.benefits.data = some [a, b, c])
    (ha : mapGet inc.benefits a.id = some A)
    (hb : mapGet inc.benefits b.id = none)
    (hc : mapGet inc.benefits c.id = some C) :
    (assembleCampaign d inc).Benefits = [some A, none, some C] := by
  simp [assembleCampaign, hdata, ha, hb, hc]

/-- Witness for the C1 amended theorem at the concrete scenario. -/
theorem toMany_dangling_null_padded_witness :
    (assembleCampaign benefitsAbcData (buildIncluded benefitsAcIncluded)).Benefits =
      [some { id := "1", attributes := { raw := "A" } }, none,
       some { id := "3", attributes := { raw := "C" } }] :=
  toMany_dangling_null_padded ⟨"benefit", "1"⟩ ⟨"benefit", "2"⟩ ⟨"benefit", "3"⟩
    { id := "1", attributes := { raw := "A" } }
    { id := "3", attributes := { raw := "C" } }
    benefitsAbcData (buildIncluded benefitsAcIncluded)
    (by decide) (by decide) (by decide) (by decide)

/-- C2 counterexample: the currently_entitled_tiers relationship block is
present with an empty identifier array, yet the assembled collection is the
one included tier, not empty — the fallback is not gated on the relationship
block at all. -/
theorem entitledTiers_gate_missing_cex :
    emptyCetMemberData.relationships.currently_entitled_tiers.data = some [] ∧
    (assembleMember emptyCetMemberData (buildIncluded oneTierIncluded)).CurrentlyEntitledTiers =
      [{ id := "t", attributes := { raw := "T" }, campaignRef := none }] ∧
    (assembleMember emptyCetMemberData (buildIncluded oneTierIncluded)).CurrentlyEntitledTiers ≠
      [] := by
  decide

/-- C2 amended: GetMemberByID fills CurrentlyEntitledTiers with every
included entity of type tier unconditionally — the relationship block for
that name is never consulted, so the result is the same whether the block is
absent, present-but-empty, or non-empty. -/
theorem entitledTiers_always_all_included (d : MemberData) (r : ToManyRel) (inc : Included) :
    (assembleMember d inc).CurrentlyEntitledTiers = mapValues inc.tiers ∧
    assembleMember
        { d with relationships := { d.relationships with currently_entitled_tiers := r } }
        inc =
      assembleMember d inc :=
  ⟨rfl, rfl⟩

/-- C3 counterexample: two campaign documents identical except that the
tiers relationship data is null in one and an empty array in the other,
over the same included array, assemble to equal campaigns — the two
outcomes are not observably different on the assembled entity. -/
theorem nullVsEmpty_indistinguishable_cex :
    nullTiersData.relationships.tiers.data = none ∧
    emptyTiersData.relationships.tiers.data = some [] ∧
    assembleCampaign nullTiersData (buildIncluded oneTierIncluded) =
      assembleCampaign emptyTiersData (buildIncluded oneTierIncluded) := by
  decide

/-- C3 amended: for a to-many relationship, null data and an empty
identifier array both assemble to the empty collection (they are not
distinguishable on the assembled entity); for a to-one relationship, null
data assembles to an absent reference. -/
theorem toMany_null_and_empty_both_empty (d : CampaignData) (inc : Included)
    (h : d.relationships.tiers.data = none ∨ d.relationships.tiers.data = some []) :
    (assembleCampaign d inc).Tiers = [] ∧
    (d.relationships.creator.data = none → (assembleCampaign d inc).Creator = none) := by
  constructor
  · rcases h with h | h <;> simp [assembleCampaign, h]
  · intro hc
    simp [assembleCampaign, hc]

/-- Witness for the C3 amended theorem at the concrete null-data campaign. -/
theorem toMany_null_and_empty_both_empty_witness :
    (assembleCampaign nullTiersData (buildIncluded oneTierIncluded)).Tiers = [] ∧
    (nullTiersData.relationships.creator.data = none →
      (assembleCampaign nullTiersData (buildIncluded oneTierIncluded)).Creator = none) :=
  toMany_null_and_empty_both_empty nullTiersData (buildIncluded oneTierIncluded) (Or.inl rfl)

/-- C4: assembling the spec scenario document — campaign 1 whose creator
reference is user 9, with user 9 named Alice included — attaches the
included user as Creator, whose FullName is Alice, with no error. -/
theorem creator_fullName_alice :
    ((GetCampaignByID "1"
          (HttpOutcome.response 200 (Except.error "") (Except.ok aliceCampaignResponse))).1.bind
        (fun c => c.Creator)).map (fun u => u.attributes.FullName) = some "Alice" ∧
    (GetCampaignByID "1"
        (HttpOutcome.response 200 (Except.error "") (Except.ok aliceCampaignResponse))).2 =
      none := by
  decide

/-- C5: when the creator reference of a campaign response dangles — its
(type, id) has no entry in the index built from the included array — the
call still succeeds, returning the assembled campaign and a nil error, and
the assembled campaign's Creator is absent. -/
theorem dangling_creator_silent (id : String) (eb : Except String ErrorResponse)
    (resp : CampaignResponse) (r : ResourceIdent)
    (hdata : resp.data.relationships.creator.data = some r)
    (hmiss : mapGet (buildIncluded resp.included).users r.id = none) :
    GetCampaignByID id (HttpOutcome.response 200 eb (Except.ok resp)) =
      (some (assembleCampaign resp.data (buildIncluded resp.included)), none) ∧
    (assembleCampaign resp.data (buildIncluded resp.included)).Creator = none := by
  constructor
  · rfl
  · simp [assembleCampaign, hdata, hmiss]

/-- Witness for C5 at the scenario with an empty included array. -/
theorem dangling_creator_silent_witness :
    GetCampaignByID "1"
        (HttpOutcome.response 200 (Except.error "") (Except.ok danglingCreatorResponse)) =
      (some (assembleCampaign danglingCreatorResponse.data
          (buildIncluded danglingCreatorResponse.included)), none) ∧
    (assembleCampaign danglingCreatorResponse.data
        (buildIncluded danglingCreatorResponse.included)).Creator = none :=
  dangling_creator_silent "1" (Except.error "") danglingCreatorResponse
    ⟨"user", "9"⟩ rfl rfl

/-- C6: on any non-200 status whose body decodes as a structured error
list, the call returns no campaign and the decoded list as a single
aggregate API error. -/
theorem non200_returns_api_error (id : String) (status : Nat) (errs : ErrorResponse)
    (ob : Except String CampaignResponse) (h : status ≠ 200) :
    GetCampaignByID id (HttpOutcome.response status (Except.ok errs) ob) =
      (none, some (ClientError.api errs)) := by
  simp [GetCampaignByID, get, h]

/-- Witness for C6: status 400 with the invalid_token error body yields the
aggregate API error holding exactly that one item, and no campaign. -/
theorem non200_returns_api_error_witness :
    GetCampaignByID "1"
        (HttpOutcome.response 400 (Except.ok invalidTokenErrors) (Except.error "")) =
      (none, some (ClientError.api invalidTokenErrors)) :=
  non200_returns_api_error "1" 400 invalidTokenErrors (Except.error "") (by decide)

/-- C7: each of the four fetch operations returns an entity exactly when it
returns no error — on every input, either a fully assembled entity (or
list) with a nil error, or a nil entity with an error; never both, never a
partial result. -/
theorem fetch_all_or_nothing :
    (∀ o : HttpOutcome IdentityResponse,
      (GetIdentity o).1.isSome ↔ (GetIdentity o).2 = none) ∧
    (∀ o : HttpOutcome CampaignListResponse,
      (GetCampaigns o).1.isSome ↔ (GetCampaigns o).2 = none) ∧
    (∀ (id : String) (o : HttpOutcome CampaignResponse),
      (GetCampaignByID id o).1.isSome ↔ (GetCampaignByID id o).2 = none) ∧
    (∀ (id : String) (o : HttpOutcome MemberResponse),
      (GetMemberByID id o).1.isSome ↔ (GetMemberByID id o).2 = none) := by
  refine ⟨fun o => ?_, fun o => ?_, fun id o => ?_, fun id o => ?_⟩ <;>
    [cases h : get o; cases h : get o; cases h : get o; cases h : get o] <;>
    simp [GetIdentity, GetCampaigns, GetCampaignByID, GetMemberByID, h]

/-- C8: relationship resolution is a pure lookup against the prebuilt index
— the assembled fields are exactly the mapped lookups of the raw identifier
lists, with no recursive re-assembly — and assembly of the concrete cyclic
document (campaign 1 lists tier t, tier t references campaign 1 back)
evaluates to a value, so the cycle causes no non-termination. -/
theorem assembly_lookup_only_terminates :
    (∀ (d : CampaignData) (inc : Included),
      (assembleCampaign d inc).Creator =
        d.relationships.creator.data.bind (fun r => mapGet inc.users r.id) ∧
      (assembleCampaign d inc).Tiers =
        (d.relationships.tiers.data.getD []).map (fun r => mapGet inc.tiers r.id) ∧
      (assembleCampaign d inc).Benefits =
        (d.relationships.benefits.data.getD []).map (fun r => mapGet inc.benefits r.id) ∧
      (assembleCampaign d inc).Goals =
        (d.relationships.goals.data.getD []).map (fun r => mapGet inc.goals r.id)) ∧
    (assembleCampaign cyclicCampaignData (buildIncluded cyclicIncluded)).Tiers =
      [some { id := "t", attributes := { raw := "T" },
              campaignRef := some ⟨"campaign", "1"⟩ }] :=
  ⟨fun d inc => ⟨rfl, rfl, rfl, rfl⟩, by decide⟩

/-- C9: GetMembersByCampaignID is a stub — for every id and option list it
performs no request and returns a nil member list and a nil error. -/
theorem membersByCampaign_stub (id : String) (opts : List RequestOpt) :
    GetMembersByCampaignID id opts = (none, none) :=
  rfl

/-- C10: on a successfully decoded identity response, the returned User's
Memberships are exactly the membership entities of the included side-table
(whatever the primary resource's relationships block says), and Campaign is
attached only when the campaign relationship data is non-null. -/
theorem identity_memberships_from_included (resp : IdentityResponse)
    (eb : Except String ErrorResponse) :
    GetIdentity (HttpOutcome.response 200 eb (Except.ok resp)) =
      (some (assembleIdentity resp.data (buildIncluded resp.included)), none) ∧
    (assembleIdentity resp.data (buildIncluded resp.included)).Memberships =
      mapValues (buildIncluded resp.included).memberships ∧
    (resp.data.relationships.campaign.data = none →
      (assembleIdentity resp.data (buildIncluded resp.included)).Campaign = none) ∧
    ((assembleIdentity resp.data (buildIncluded resp.included)).Campaign.isSome →
      resp.data.relationships.campaign.data.isSome) := by
  refine ⟨rfl, rfl, fun h => by simp [assembleIdentity, h], fun h => ?_⟩
  cases hd : resp.data.relationships.campaign.data <;>
    simp [assembleIdentity, hd] at h ⊢

end Patreon
